import Mathlib

/-!
Shallow embedding of the NES PPU core of this repository
(src/nes/ppu.py together with src/nes/bitwise.py).

The state is a record of the instance fields of class NESPPU.  Machine
bytes and addresses are modelled as Nat (Python integers are unbounded,
and the source masks explicitly exactly where it masks), except that a
few comparisons that the source performs on possibly negative Python
integers (pixel - 1) are carried out over Int.  External collaborators
are modelled as follows: the VRAM view (class NESVRAM from src/nes/memory.py,
a module that is not among the sources) is a raw byte map together with
the address constants the specification gives for it; the screen sink is
a list of emitted pixels; the interrupt listener is a counter of
raise_nmi calls.
-/

namespace NESPPU

/-- From src/nes/bitwise.py: whether the given bit is set high in value. -/
def bit_high (value : Nat) (bit : Nat) : Bool :=
  decide (value &&& (0b00000001 <<< bit) > 0)

/-- From src/nes/bitwise.py: whether the given bit is set low in value. -/
def bit_low (value : Nat) (bit : Nat) : Bool :=
  decide (value &&& (0b00000001 <<< bit) = 0)

/-- An RGB triple, as the Python tuples used for colors. -/
abbrev RGB := Nat × Nat × Nat

-- Register indices (class attributes of NESPPU).
def PPU_CTRL : Nat := 0
def PPU_MASK : Nat := 1
def PPU_STATUS : Nat := 2
def OAM_ADDR : Nat := 3
def OAM_DATA : Nat := 4
def PPU_SCROLL : Nat := 5
def PPU_ADDR : Nat := 6
def PPU_DATA : Nat := 7

def NUM_REGISTERS : Nat := 8
def OAM_SIZE_BYTES : Nat := 256

-- Masks for bits in the PPU registers (class attributes of NESPPU).
def VBLANK_MASK : Nat := 0b10000000
def SPRITE0_HIT_MASK : Nat := 0b01000000
def SPRITE_OVERFLOW_MASK : Nat := 0b00100000

def SPRITE_SIZE_MASK : Nat := 0b00100000
def BKG_PATTERN_TABLE_MASK : Nat := 0b00010000
def SPRITE_PATTERN_TABLE_MASK : Nat := 0b00001000
def VRAM_INCREMENT_MASK : Nat := 0b00000100
def NAMETABLE_MASK : Nat := 0b00000011

def RENDERING_ENABLED_MASK : Nat := 0b00011000
def RENDER_SPRITES_MASK : Nat := 0b00010000
def RENDER_BACKGROUND_MASK : Nat := 0b00001000
def RENDER_LEFT8_SPRITES_MASK : Nat := 0b00000100
def RENDER_LEFT8_BKG_MASK : Nat := 0b00000010
def GREYSCALE_MASK : Nat := 0b00000001

def V_BLANK_BIT : Nat := 7
def RENDER_LEFT8_BKG_BIT : Nat := 1
def RENDER_LEFT8_SPRITES_BIT : Nat := 2

def PPU_SCROLL_X : Nat := 0
def PPU_SCROLL_Y : Nat := 1

def PIXELS_PER_LINE : Nat := 341
def SCREEN_HEIGHT_PX : Nat := 240
def SCREEN_WIDTH_PX : Nat := 256
def TILE_HEIGHT_PX : Nat := 8
def TILE_WIDTH_PX : Nat := 8
def SCREEN_TILE_ROWS : Nat := 30
def SCREEN_TILE_COLS : Nat := 32
def PATTERN_BITS_PER_PIXEL : Nat := 2

/-- TILE_WIDTH_PX * TILE_HEIGHT_PX * PATTERN_BITS_PER_PIXEL / 8 = 16. -/
def PATTERN_SIZE_BYTES : Nat := TILE_WIDTH_PX * TILE_HEIGHT_PX * PATTERN_BITS_PER_PIXEL / 8

/-- Modelled from the spec: the NESVRAM constant for the start of palette RAM.
The module src/nes/memory.py is not among the sources; the specification
places palette RAM at the fixed palette_start constant, and its buffered-read
example pairs address 0x3F00 with the mirrored nametable byte at 0x2F00. -/
def PALETTE_START : Nat := 0x3F00

/-- Modelled from the spec: the NESVRAM constant for the start of the
nametables (the spec places nametables plus attributes at 0x2000-0x2FFF). -/
def NAMETABLE_START : Nat := 0x2000

/-- Modelled from the spec: the NESVRAM constant for the byte length of one
nametable (a 32 x 30 table of tile bytes plus a 64 byte attribute region). -/
def NAMETABLE_LENGTH_BYTES : Nat := 0x400

/-- Modelled from the spec: the NESVRAM offset of the attribute table inside
a nametable (after the 32 x 30 = 960 tile bytes). -/
def ATTRIBUTE_TABLE_OFFSET : Nat := 0x3C0

/-- The baked 64-entry RGB lookup table (class attribute DEFAULT_NES_PALETTE). -/
def DEFAULT_NES_PALETTE : List RGB := [
  ( 82,  82,  82), (  1,  26,  81), ( 15,  15, 101), ( 35,   6,  99),
  ( 54,   3,  75), ( 64,   4,  38), ( 63,   9,   4), ( 50,  19,   0),
  ( 31,  32,   0), ( 11,  42,   0), (  0,  47,   0), (  0,  46,  10),
  (  0,  38,  45), (  0,   0,   0), (  0,   0,   0), (  0,   0,   0),
  (160, 160, 160), ( 30,  74, 157), ( 56,  55, 188), ( 88,  40, 184),
  (117,  33, 148), (132,  35,  92), (130,  46,  36), (111,  63,   0),
  ( 81,  82,   0), ( 49,  99,   0), ( 26, 107,   5), ( 14, 105,  46),
  ( 16,  92, 104), (  0,   0,   0), (  0,   0,   0), (  0,   0,   0),
  (254, 255, 255), (105, 158, 252), (137, 135, 255), (174, 118, 255),
  (206, 109, 241), (224, 112, 178), (222, 124, 112), (200, 145,  62),
  (166, 167,  37), (129, 186,  40), ( 99, 196,  70), ( 84, 193, 125),
  ( 86, 179, 192), ( 60,  60,  60), (  0,   0,   0), (  0,   0,   0),
  (254, 255, 255), (190, 214, 253), (204, 204, 255), (221, 196, 255),
  (234, 192, 249), (242, 193, 223), (241, 199, 194), (232, 208, 170),
  (217, 218, 157), (201, 226, 158), (188, 230, 174), (180, 229, 199),
  (181, 223, 228), (169, 169, 169), (  0,   0,   0), (  0,   0,   0)]

/-- Indexing into the instance attribute rgb_palette (the engines under the
claims use the default palette installed by the constructor). -/
def rgb_palette (i : Nat) : RGB := DEFAULT_NES_PALETTE.getD i (0, 0, 0)

/-- The gray candidates walked by _get_non_palette_color, starting at (1,1,1). -/
def gray (k : Nat) : RGB := (1 + k, 1 + k, 1 + k)

/-- Method _get_non_palette_color: the first gray not present in the palette.
The Python loop is an unbounded while True walking the grays; since the
palette has only 64 entries, one of the first 65 grays is always free,
so the search is modelled with that explicit bound. -/
def _get_non_palette_color : RGB :=
  match (List.range 65).find? (fun k => !(DEFAULT_NES_PALETTE.contains (gray k))) with
  | some k => gray k
  | none => (1, 1, 1)

/-- Instance attribute transparent_color, fixed by the constructor from the
default palette. -/
def transparent_color : RGB := _get_non_palette_color

/-- The mutable instance state of class NESPPU.  The bytearrays ppu_scroll and
oam are byte maps; the two-slot background latches and the 8 sprite slots are
maps from the slot index; _palette_cache maps (is_sprite, palette_id) to the
cached palette, None when invalid.  The secondary 32-byte OAM buffer _oam and
the commented-out field _t of the source are never read and are omitted.
screen records the write_at calls (newest first) and nmi_count the raise_nmi
calls of the external collaborators. -/
structure PPUState where
  ppu_ctrl : Nat
  ppu_mask : Nat
  oam_addr : Nat
  _oam_addr_held : Nat
  oam_data : Nat
  ppu_scroll : Nat → Nat
  ppu_addr : Nat
  _ppu_byte_latch : Nat
  _ppu_data_buffer : Nat
  _io_latch : Nat
  _palette : Nat → List RGB
  _pattern_lo : Nat → Nat
  _pattern_hi : Nat → Nat
  _sprite_pattern : Nat → Nat → Option RGB
  _sprite_bkg_priority : Nat → Bool
  _active_sprites : List Nat
  line : Nat
  pixel : Nat
  row : Nat
  col : Nat
  _tN : Nat
  _tX : Nat
  _tY : Nat
  _bkg_px : Nat
  in_vblank : Bool
  sprite_zero_hit : Bool
  sprite_overflow : Bool
  cycles_since_reset : Nat
  cycles_since_frame : Nat
  frames_since_reset : Nat
  oam : Nat → Nat
  vram : Nat → Nat
  _palette_cache : Bool → Nat → Option (List RGB)
  screen : List (Nat × Nat × RGB)
  nmi_count : Nat

/-- The constructor of NESPPU: zeroed registers, flags and counters.  The
initial VRAM contents come from the cartridge and are a parameter. -/
def ppu_init (vram0 : Nat → Nat) : PPUState where
  ppu_ctrl := 0
  ppu_mask := 0
  oam_addr := 0
  _oam_addr_held := 0
  oam_data := 0
  ppu_scroll := fun _ => 0
  ppu_addr := 0
  _ppu_byte_latch := 0
  _ppu_data_buffer := 0
  _io_latch := 0
  _palette := fun j => if j = 0 then DEFAULT_NES_PALETTE.take 3
                       else (DEFAULT_NES_PALETTE.drop 3).take 3
  _pattern_lo := fun _ => 0
  _pattern_hi := fun _ => 0
  _sprite_pattern := fun _ _ => none
  _sprite_bkg_priority := fun _ => false
  _active_sprites := []
  line := 0
  pixel := 0
  row := 0
  col := 0
  _tN := 0
  _tX := 0
  _tY := 0
  _bkg_px := 0
  in_vblank := false
  sprite_zero_hit := false
  sprite_overflow := false
  cycles_since_reset := 0
  cycles_since_frame := 0
  frames_since_reset := 0
  oam := fun _ => 0
  vram := vram0
  _palette_cache := fun _ _ => none
  screen := []
  nmi_count := 0

/-- Method invalidate_palette_cache. -/
def invalidate_palette_cache (s : PPUState) : PPUState :=
  { s with _palette_cache := fun _ _ => none }

/-- Property ppu_status: the status register value without the io latch
noise in the lower bits. -/
def ppu_status (s : PPUState) : Nat :=
  VBLANK_MASK * (if s.in_vblank then 1 else 0)
    + SPRITE0_HIT_MASK * (if s.sprite_zero_hit then 1 else 0)
    + SPRITE_OVERFLOW_MASK * (if s.sprite_overflow then 1 else 0)

/-- Method decode_palette: look up or compute the 4-color palette for the
given palette id, memoized in _palette_cache. -/
def decode_palette (s : PPUState) (palette_id : Nat) (is_sprite : Bool := false) :
    List RGB × PPUState :=
  match s._palette_cache is_sprite palette_id with
  | some p => (p, s)
  | none =>
    let palette_address := PALETTE_START + 16 * (if is_sprite then 1 else 0) + 4 * palette_id
    let palette := (List.range 4).map
      (fun i => rgb_palette (s.vram (palette_address + i) &&& 0b00111111))
    (palette,
     { s with _palette_cache := fun b p =>
         if b = is_sprite ∧ p = palette_id then some palette else s._palette_cache b p })

/-- Method _increment_vram_address: add 1 or 32 to ppu_addr per CTRL bit 2
(no masking in the source). -/
def _increment_vram_address (s : PPUState) : PPUState :=
  { s with ppu_addr :=
      s.ppu_addr + (if s.ppu_ctrl &&& VRAM_INCREMENT_MASK = 0 then 1 else 32) }

/-- Method _trigger_nmi: one raise_nmi call on the interrupt listener. -/
def _trigger_nmi (s : PPUState) : PPUState :=
  { s with nmi_count := s.nmi_count + 1 }

/-- Method read_register.  Returns the value read and the successor state.
The fall-through for a register index above 7 (which returns None in Python
and is unreachable for a 3-bit index) is modelled as returning 0. -/
def read_register (s : PPUState) (register : Nat) : Nat × PPUState :=
  if register = PPU_CTRL then (s._io_latch, s)
  else if register = PPU_MASK then (s._io_latch, s)
  else if register = PPU_STATUS then
    let s1 := { s with _ppu_byte_latch := 0 }
    let v := ppu_status s1 + (0x00011111 &&& s1._io_latch)
    (v, { s1 with in_vblank := false, _io_latch := v })
  else if register = OAM_ADDR then (s._io_latch, s)
  else if register = OAM_DATA then
    let v := s.oam s.oam_addr
    (v, { s with _io_latch := v })
  else if register = PPU_SCROLL then (s._io_latch, s)
  else if register = PPU_ADDR then (s._io_latch, s)
  else if register = PPU_DATA then
    let vs :=
      if s.ppu_addr < PALETTE_START then
        (s._ppu_data_buffer, { s with _ppu_data_buffer := s.vram s.ppu_addr })
      else
        (s.vram s.ppu_addr, { s with _ppu_data_buffer := s.vram (s.ppu_addr - 0x1000) })
    let s2 := _increment_vram_address vs.2
    (vs.1, { s2 with _io_latch := s2._ppu_data_buffer })
  else (0, s)

/-- Method write_register. -/
def write_register (s : PPUState) (register : Nat) (value : Nat) : PPUState :=
  let s := { s with _io_latch := value &&& 0xFF }
  if register = PPU_CTRL then
    if s.cycles_since_reset < 29658 then s
    else
      let trigger_nmi := s.in_vblank
        && decide (value &&& VBLANK_MASK > 0)
        && decide (s.ppu_ctrl &&& VBLANK_MASK = 0)
      let s := { s with ppu_ctrl := value &&& 0xFF, _tN := value &&& 0b00000011 }
      if trigger_nmi then _trigger_nmi s else s
  else if register = PPU_MASK then { s with ppu_mask := value &&& 0xFF }
  else if register = PPU_STATUS then s
  else if register = OAM_ADDR then { s with oam_addr := value &&& 0xFF }
  else if register = OAM_DATA then
    { s with oam := fun a => if a = s.oam_addr then value else s.oam a,
             oam_addr := (s.oam_addr + 1) &&& 0xFF }
  else if register = PPU_SCROLL then
    let s := { s with ppu_scroll := fun i =>
                 if i = s._ppu_byte_latch then value else s.ppu_scroll i }
    let s :=
      if s._ppu_byte_latch = 0 then
        { s with _tX := (value &&& 0b11111000) >>> 3 }
      else
        { s with _tY := (value &&& 0b11111000) >>> 3 }
    { s with _ppu_byte_latch := 1 - s._ppu_byte_latch }
  else if register = PPU_ADDR then
    let s :=
      if s._ppu_byte_latch = 0 then
        { s with ppu_addr := (s.ppu_addr &&& 0x00FF) + (value <<< 8),
                 _tY := (s._tY &&& 0b10000) + (value &&& 0b1111) }
      else
        { s with ppu_addr := (s.ppu_addr &&& 0xFF00) + value,
                 _tY := (s._tY &&& 0b00111) + (value &&& 0b11),
                 _tN := (value &&& 0b00001100) >>> 2 }
    { s with _ppu_byte_latch := 1 - s._ppu_byte_latch }
  else if register = PPU_DATA then
    let s := { s with vram := fun a => if a = s.ppu_addr then value else s.vram a }
    let s := _increment_vram_address s
    if s.ppu_addr ≥ PALETTE_START then invalidate_palette_cache s else s
  else s

/-- The scan loop of method _prefetch_active_sprites: walk the OAM entries n
for n in range(64) starting from _oam_addr_held, collecting the start
addresses and the line-within-sprite of the sprites active on the given line,
stopping early as soon as 9 have been collected (the Python break). -/
def prefetch_scan (s : PPUState) (line sprite_height : Nat) :
    List Nat → List Nat → List Nat → List Nat × List Nat
  | [], active, sprite_line => (active, sprite_line)
  | n :: ns, active, sprite_line =>
    let addr := (s._oam_addr_held + n * 4) % OAM_SIZE_BYTES
    let sprite_y := s.oam addr
    if sprite_y ≤ line ∧ line < sprite_y + sprite_height then
      let active2 := active ++ [addr]
      let sprite_line2 := sprite_line ++ [line - sprite_y]
      if active2.length ≥ 9 then (active2, sprite_line2)
      else prefetch_scan s line sprite_height ns active2 sprite_line2
    else prefetch_scan s line sprite_height ns active sprite_line

/-- The body of the per-pixel loop inside _fill_sprite_latches: write pixel
x of the fetched pattern row into slot i of _sprite_pattern, at index
x when flip_h and 7 - x otherwise, as the palette color, or None for the
transparent color 0. -/
def sprite_row_body (i : Nat) (flip_h : Bool) (palette : List RGB)
    (sprite_pattern_lo sprite_pattern_hi : Nat) (s : PPUState) (x : Nat) : PPUState :=
  let c := (if bit_high sprite_pattern_hi x then 1 else 0) * 2
    + (if bit_high sprite_pattern_lo x then 1 else 0)
  { s with _sprite_pattern := fun j y =>
      if j = i ∧ y = (if flip_h then x else 7 - x) then
        (if c ≠ 0 then some (palette.getD c (0, 0, 0)) else none)
      else s._sprite_pattern j y }

/-- The body of the per-sprite loop of method _fill_sprite_latches, for the
sprite in slot i whose OAM start address and line within the sprite are the
i-th entries of the two lists. -/
def fill_sprite_body (active_sprite_addrs sprite_line : List Nat)
    (double_sprites : Bool) (table_base : Nat) (s : PPUState) (i : Nat) : PPUState :=
  let address := active_sprite_addrs.getD i 0
  let attribs := s.oam ((address + 2) &&& 0xFF)
  let palette_ix := attribs &&& 0b00000011
  let ps := decode_palette s palette_ix true
  let palette := ps.1
  let s := ps.2
  let flip_v := bit_high attribs 7
  let flip_h := bit_high attribs 6
  let s := { s with _sprite_bkg_priority := fun j =>
               if j = i then bit_high attribs 5 else s._sprite_bkg_priority j }
  let til :=
    if ¬ (double_sprites = true) then
      (s.oam ((address + 1) &&& 0xFF),
       if ¬ (flip_v = true) then sprite_line.getD i 0 else 7 - sprite_line.getD i 0)
    else
      let line := if ¬ (flip_v = true) then sprite_line.getD i 0 else 15 - sprite_line.getD i 0
      let tile_ix := s.oam ((address + 1) &&& 0xFF) &&& 0b11111110
      if line ≥ 8 then (tile_ix + 1, line - 8) else (tile_ix, line)
  let tile_base := table_base + til.1 * PATTERN_SIZE_BYTES
  let sprite_pattern_lo := s.vram (tile_base + til.2)
  let sprite_pattern_hi := s.vram (tile_base + 8 + til.2)
  (List.range 8).foldl
    (sprite_row_body i flip_h palette sprite_pattern_lo sprite_pattern_hi) s

/-- Method _fill_sprite_latches: pre-fetch the pattern row of each captured
sprite for the next scanline.  The pattern table base is chosen once from
CTRL bit 3 (for 8x16 sprites too, see the claims about this). -/
def _fill_sprite_latches (s : PPUState) (active_sprite_addrs sprite_line : List Nat)
    (double_sprites : Bool) : PPUState :=
  let table_base := (if s.ppu_ctrl &&& SPRITE_PATTERN_TABLE_MASK > 0 then 1 else 0) * 0x1000
  (List.range active_sprite_addrs.length).foldl
    (fill_sprite_body active_sprite_addrs sprite_line double_sprites table_base) s

/-- Method _prefetch_active_sprites: detect the sprites active on the given
line (up to 8, setting sprite_overflow when a 9th is found), store their OAM
start addresses in _active_sprites and fill the sprite latches. -/
def _prefetch_active_sprites (s : PPUState) (line : Nat) : PPUState :=
  let double_sprites := decide (s.ppu_ctrl &&& SPRITE_SIZE_MASK > 0)
  let sprite_height := if double_sprites then 16 else 8
  let found := prefetch_scan s line sprite_height (List.range 64) [] []
  let over := decide (found.1.length > 8)
  let s := if over then { s with sprite_overflow := true } else s
  let active := if over then found.1.take 8 else found.1
  let lines := if over then found.2.take 8 else found.2
  let s := { s with _active_sprites := active }
  _fill_sprite_latches s active lines double_sprites

/-- The body of the loop of method _overlay_sprites over the active sprite
slots (run in reverse slot order): the accumulator holds
(sprite_c_out, top_sprite, s0_visible).  The comparisons involving
pixel - 1 are over Int, as in Python, where pixel - 1 is -1 at pixel 0. -/
def overlay_body (s : PPUState) (acc : Option RGB × Option Nat × Bool) (i : Nat) :
    Option RGB × Option Nat × Bool :=
  let sprite_addr := s._active_sprites.getD i 0
  let sprite_x := s.oam (sprite_addr + 3)
  if (sprite_x : Int) ≤ (s.pixel : Int) - 1 ∧ (s.pixel : Int) - 1 < (sprite_x : Int) + 8 then
    let pix := s.pixel - 1 - sprite_x
    match s._sprite_pattern i pix with
    | some c => (some c, some i, acc.2.2 || decide (sprite_addr = 0))
    | none => acc
  else acc

/-- Method _overlay_sprites: overlay the active sprites on the background
pixel at the current dot, detect the sprite zero collision, and substitute
the universal background color for a transparent result. -/
def _overlay_sprites (s : PPUState) (bkg_pixel : RGB) : RGB × PPUState :=
  let c_out := bkg_pixel
  if s.ppu_mask &&& RENDER_SPRITES_MASK = 0
      ∨ ((s.pixel : Int) - 1 < 8 ∧ bit_low s.ppu_mask RENDER_LEFT8_SPRITES_BIT = true) then
    (c_out, s)
  else
    let r := (List.range s._active_sprites.length).reverse.foldl (overlay_body s)
      (none, none, false)
    let sprite_c_out := r.1
    let top_sprite := r.2.1
    let s0_visible := r.2.2
    let s :=
      if s0_visible = true ∧ bkg_pixel ≠ transparent_color then
        { s with sprite_zero_hit := true }
      else s
    let c_out :=
      match sprite_c_out with
      | some c =>
        if ¬ (s._sprite_bkg_priority (top_sprite.getD 0) = true)
            ∨ bkg_pixel = transparent_color then c
        else c_out
      | none => c_out
    if c_out ≠ transparent_color then (c_out, s)
    else
      let ps := decode_palette s 0
      (ps.1.getD 0 (0, 0, 0), ps.2)

/-- Method _get_bkg_pixel: read the background pixel of the current dot from
the zero-index latches, transparent when background rendering is off, masked
in the left 8 pixels, or of color index 0. -/
def _get_bkg_pixel (s : PPUState) : RGB :=
  if s.ppu_mask &&& RENDER_BACKGROUND_MASK = 0
      ∨ ((s.pixel : Int) - 1 < 8 ∧ bit_low s.ppu_mask RENDER_LEFT8_BKG_BIT = true) then
    transparent_color
  else
    let mask := 1 <<< (7 - (s.pixel - 1) % 8)
    let v := (if s._pattern_lo 0 &&& mask > 0 then 1 else 0)
      + (if s._pattern_hi 0 &&& mask > 0 then 1 else 0) * 2
    if v > 0 then (s._palette 0).getD v (0, 0, 0) else transparent_color

/-- Method shift_bkg_latches: move the next-stage latches into the current
stage. -/
def shift_bkg_latches (s : PPUState) : PPUState :=
  { s with _palette := fun j => if j = 0 then s._palette 1 else s._palette j,
           _pattern_lo := fun j => if j = 0 then s._pattern_lo 1 else s._pattern_lo j,
           _pattern_hi := fun j => if j = 0 then s._pattern_hi 1 else s._pattern_hi j }

/-- Method fill_bkg_latches: fetch the nametable tile, attribute palette and
the two pattern planes for logical (line, col) into the next-stage latches.
The try/except around the nametable read only prints on an exception and
cannot fire here since the modelled VRAM read is total. -/
def fill_bkg_latches (s : PPUState) (line col : Nat) : PPUState :=
  let row := line / 8
  let nx0 := if bit_high s._tN 0 then 1 else 0
  let ny0 := if bit_high s._tN 1 then 1 else 0
  let total_row := (row + ny0 * SCREEN_TILE_ROWS
    + ((s.ppu_scroll PPU_SCROLL_Y &&& 0b11111000) >>> 3)) % (2 * SCREEN_TILE_ROWS)
  let total_col := (col + nx0 * SCREEN_TILE_COLS
    + ((s.ppu_scroll PPU_SCROLL_X &&& 0b11111000) >>> 3)) % (2 * SCREEN_TILE_COLS)
  let ny := total_row / SCREEN_TILE_ROWS
  let nx := total_col / SCREEN_TILE_COLS
  let tile_row := total_row - ny * SCREEN_TILE_ROWS
  let tile_col := total_col - nx * SCREEN_TILE_COLS
  let ntbl_base := NAMETABLE_START + (ny * 2 + nx) * NAMETABLE_LENGTH_BYTES
  let tile_addr := ntbl_base + tile_row * SCREEN_TILE_COLS + tile_col
  let tile_index := s.vram tile_addr
  let tile_bank := if s.ppu_ctrl &&& BKG_PATTERN_TABLE_MASK > 0 then 1 else 0
  let table_base := tile_bank * 0x1000
  let tile_base := table_base + tile_index * PATTERN_SIZE_BYTES
  let attribute_byte := s.vram (ntbl_base + ATTRIBUTE_TABLE_OFFSET
    + (tile_row / 4 * 8 + tile_col / 4))
  let shift := 4 * (tile_row / 2 % 2) + 2 * (tile_col / 2 % 2)
  let mask := 0b00000011 <<< shift
  let palette_id := (attribute_byte &&& mask) >>> shift
  let ps := decode_palette s palette_id false
  let s := ps.2
  let s := { s with _palette := fun j => if j = 1 then ps.1 else s._palette j }
  let tile_line := line - 8 * row
  { s with
    _pattern_lo := fun j => if j = 1 then s.vram (tile_base + tile_line) else s._pattern_lo j,
    _pattern_hi := fun j => if j = 1 then s.vram (tile_base + tile_line + 8) else s._pattern_hi j }

/-- Method _new_frame: counter resets at the start of a frame. -/
def _new_frame (s : PPUState) : PPUState :=
  { s with frames_since_reset := s.frames_since_reset + 1,
           cycles_since_frame := 0,
           pixel := 0, line := 0, row := 0, col := 0 }

/-- One iteration of the loop of method run_cycles, carrying the loop-local
frame_ended flag (which the source initializes once per call and never
resets inside the loop).  The debug print block guarded by
(line, pixel) = (15, 256) or (239, 256) only computes locals and prints,
assigning no attribute, and is omitted. -/
def run_one_cycle (s : PPUState) (frame_ended : Bool) : PPUState × Bool :=
  let s :=
    if s.line ≤ 239 ∧ s.ppu_mask &&& RENDERING_ENABLED_MASK > 0 then
      if 0 < s.pixel ∧ s.pixel ≤ 256 then
        let s :=
          if (s.pixel - 1) % 8 = 0 ∧ s.pixel > 1 then
            fill_bkg_latches (shift_bkg_latches s) s.line (s.col + 1)
          else s
        let bkg_pixel := _get_bkg_pixel s
        let fs := _overlay_sprites s bkg_pixel
        let final_pixel := fs.1
        let s := fs.2
        if final_pixel ≠ transparent_color then
          { s with screen := (s.pixel - 1, s.line, final_pixel) :: s.screen }
        else s
      else if s.pixel = 257 then
        _prefetch_active_sprites s (s.line + 1)
      else if 321 ≤ s.pixel ∧ s.pixel ≤ 336 then
        if s.pixel % 8 = 1 then
          fill_bkg_latches (shift_bkg_latches s) (s.line + 1) ((s.pixel - 321) / 8)
        else s
      else
        { s with _bkg_px := 0 }
    else s
  let sfe :=
    if s.line = 0 ∧ s.pixel = 65 then ({ s with _oam_addr_held := s.oam_addr }, frame_ended)
    else if s.line = 240 ∧ s.pixel = 0 then (s, frame_ended)
    else if s.line = 241 ∧ s.pixel = 1 then
      let s := { s with in_vblank := true }
      (if s.ppu_ctrl &&& VBLANK_MASK > 0 then _trigger_nmi s else s, frame_ended)
    else if s.line ≤ 260 then (s, frame_ended)
    else if s.line = 261 then
      if s.pixel = 1 then
        ({ s with in_vblank := false, sprite_zero_hit := false, sprite_overflow := false },
         frame_ended)
      else if s.pixel = 257 then (_prefetch_active_sprites s 0, frame_ended)
      else if 321 ≤ s.pixel ∧ s.pixel ≤ 336 then
        (if s.pixel % 8 = 1 then fill_bkg_latches (shift_bkg_latches s) 0 ((s.pixel - 321) / 8)
         else s, frame_ended)
      else if s.pixel = PIXELS_PER_LINE - 1 - s.frames_since_reset % 2 then (s, true)
      else (s, frame_ended)
    else (s, frame_ended)
  let s := sfe.1
  let frame_ended := sfe.2
  let s : PPUState := { s with cycles_since_reset := s.cycles_since_reset + 1,
                               cycles_since_frame := s.cycles_since_frame + 1,
                               pixel := s.pixel + 1 }
  let s : PPUState := if s.pixel > 1 ∧ s.pixel % 8 = 1 then { s with col := s.col + 1 } else s
  let s :=
    if s.pixel ≥ PIXELS_PER_LINE then
      let s : PPUState := { s with line := s.line + 1, pixel := 0, col := 0 }
      if s.line > 0 ∧ s.line % 8 = 0 then { s with row := s.row + 1 } else s
    else s
  let s := if frame_ended then _new_frame s else s
  (s, frame_ended)

/-- The loop of method run_cycles, iterated from a given frame_ended flag. -/
def run_cycles_from (s : PPUState) (frame_ended : Bool) : Nat → PPUState × Bool
  | 0 => (s, frame_ended)
  | Nat.succ n =>
    let r := run_one_cycle s frame_ended
    run_cycles_from r.1 r.2 n

/-- Method run_cycles: advance the state machine by num_cycles dots and
report whether a frame boundary was reached. -/
def run_cycles (s : PPUState) (num_cycles : Nat) : PPUState × Bool :=
  run_cycles_from s false num_cycles

/-! Theorems about the claims. -/

/-- A foldl over states preserves any projection that every step preserves. -/
theorem foldl_proj_eq {α β : Type} (f : PPUState → α → PPUState) (g : PPUState → β)
    (hf : ∀ s x, g (f s x) = g s) : ∀ (l : List α) (s : PPUState), g (l.foldl f s) = g s
  | [], _ => rfl
  | x :: xs, s => by rw [List.foldl_cons, foldl_proj_eq f g hf xs, hf]

/-- decode_palette changes only the palette cache: sprite_overflow is kept. -/
theorem decode_palette_sprite_overflow (s : PPUState) (pid : Nat) (b : Bool) :
    ((decode_palette s pid b).2).sprite_overflow = s.sprite_overflow := by
  unfold decode_palette; split <;> rfl

/-- decode_palette changes only the palette cache: _active_sprites is kept. -/
theorem decode_palette_active_sprites (s : PPUState) (pid : Nat) (b : Bool) :
    ((decode_palette s pid b).2)._active_sprites = s._active_sprites := by
  unfold decode_palette; split <;> rfl

/-- decode_palette changes only the palette cache: sprite_zero_hit is kept. -/
theorem decode_palette_sprite_zero_hit (s : PPUState) (pid : Nat) (b : Bool) :
    ((decode_palette s pid b).2).sprite_zero_hit = s.sprite_zero_hit := by
  unfold decode_palette; split <;> rfl

/-- The sprite pattern row writes keep sprite_overflow. -/
theorem sprite_row_body_sprite_overflow (i : Nat) (fh : Bool) (p : List RGB)
    (lo hi : Nat) (s : PPUState) (x : Nat) :
    (sprite_row_body i fh p lo hi s x).sprite_overflow = s.sprite_overflow := rfl

/-- The sprite pattern row writes keep _active_sprites. -/
theorem sprite_row_body_active_sprites (i : Nat) (fh : Bool) (p : List RGB)
    (lo hi : Nat) (s : PPUState) (x : Nat) :
    (sprite_row_body i fh p lo hi s x)._active_sprites = s._active_sprites := rfl

/-- The sprite pattern row writes keep sprite_zero_hit. -/
theorem sprite_row_body_sprite_zero_hit (i : Nat) (fh : Bool) (p : List RGB)
    (lo hi : Nat) (s : PPUState) (x : Nat) :
    (sprite_row_body i fh p lo hi s x).sprite_zero_hit = s.sprite_zero_hit := rfl

/-- Filling one sprite latch slot keeps sprite_overflow. -/
theorem fill_sprite_body_sprite_overflow (a b : List Nat) (d : Bool) (t : Nat)
    (s : PPUState) (i : Nat) :
    (fill_sprite_body a b d t s i).sprite_overflow = s.sprite_overflow := by
  unfold fill_sprite_body
  rw [foldl_proj_eq _ PPUState.sprite_overflow (sprite_row_body_sprite_overflow i _ _ _ _)]
  exact decode_palette_sprite_overflow ..

/-- Filling one sprite latch slot keeps _active_sprites. -/
theorem fill_sprite_body_active_sprites (a b : List Nat) (d : Bool) (t : Nat)
    (s : PPUState) (i : Nat) :
    (fill_sprite_body a b d t s i)._active_sprites = s._active_sprites := by
  unfold fill_sprite_body
  rw [foldl_proj_eq _ PPUState._active_sprites (sprite_row_body_active_sprites i _ _ _ _)]
  exact decode_palette_active_sprites ..

/-- Filling one sprite latch slot keeps sprite_zero_hit. -/
theorem fill_sprite_body_sprite_zero_hit (a b : List Nat) (d : Bool) (t : Nat)
    (s : PPUState) (i : Nat) :
    (fill_sprite_body a b d t s i).sprite_zero_hit = s.sprite_zero_hit := by
  unfold fill_sprite_body
  rw [foldl_proj_eq _ PPUState.sprite_zero_hit (sprite_row_body_sprite_zero_hit i _ _ _ _)]
  exact decode_palette_sprite_zero_hit ..

/-- _fill_sprite_latches keeps sprite_overflow. -/
theorem fill_latches_sprite_overflow (s : PPUState) (a b : List Nat) (d : Bool) :
    (_fill_sprite_latches s a b d).sprite_overflow = s.sprite_overflow := by
  unfold _fill_sprite_latches
  exact foldl_proj_eq _ PPUState.sprite_overflow
    (fun s i => fill_sprite_body_sprite_overflow a b d _ s i) _ s

/-- _fill_sprite_latches keeps _active_sprites. -/
theorem fill_latches_active_sprites (s : PPUState) (a b : List Nat) (d : Bool) :
    (_fill_sprite_latches s a b d)._active_sprites = s._active_sprites := by
  unfold _fill_sprite_latches
  exact foldl_proj_eq _ PPUState._active_sprites
    (fun s i => fill_sprite_body_active_sprites a b d _ s i) _ s

/-- _fill_sprite_latches keeps sprite_zero_hit. -/
theorem fill_latches_sprite_zero_hit (s : PPUState) (a b : List Nat) (d : Bool) :
    (_fill_sprite_latches s a b d).sprite_zero_hit = s.sprite_zero_hit := by
  unfold _fill_sprite_latches
  exact foldl_proj_eq _ PPUState.sprite_zero_hit
    (fun s i => fill_sprite_body_sprite_zero_hit a b d _ s i) _ s

/-- The OAM entry scanned n-th by sprite evaluation. -/
def scan_addr (s : PPUState) (n : Nat) : Nat :=
  (s._oam_addr_held + n * 4) % OAM_SIZE_BYTES

/-- Whether the sprite whose OAM start address is addr is active on the given
line for the given sprite height (the scan condition of the source loop). -/
def sprite_active (s : PPUState) (line sprite_height addr : Nat) : Bool :=
  decide (s.oam addr ≤ line ∧ line < s.oam addr + sprite_height)

/-- The addresses of all sprites active on the given line, in scan order over
the 64 OAM entries starting from _oam_addr_held. -/
def scan_active (s : PPUState) (line sprite_height : Nat) : List Nat :=
  ((List.range 64).map (scan_addr s)).filter (sprite_active s line sprite_height)

/-- scan_active written out with the scan address and the activity test
inlined, as they appear in the scan loop. -/
theorem scan_active_eq (s : PPUState) (line h : Nat) :
    scan_active s line h
      = ((List.range 64).map (fun n => (s._oam_addr_held + n * 4) % OAM_SIZE_BYTES)).filter
          (fun addr => decide (s.oam addr ≤ line ∧ line < s.oam addr + h)) := rfl

/-- The scan loop collects, after the already accumulated prefix, the active
sprites of the remaining entries in scan order, cut off at 9 in total. -/
theorem prefetch_scan_fst (s : PPUState) (line h : Nat) :
    ∀ (ns active sl : List Nat), active.length ≤ 8 →
      (prefetch_scan s line h ns active sl).1
        = active ++ ((ns.map (fun n => (s._oam_addr_held + n * 4) % OAM_SIZE_BYTES)).filter
            (fun addr => decide (s.oam addr ≤ line ∧ line < s.oam addr + h))).take
            (9 - active.length) := by
  intro ns
  induction ns with
  | nil => intro active sl _; simp [prefetch_scan]
  | cons n ns ih =>
    intro active sl hle
    simp only [prefetch_scan, List.map_cons, List.filter_cons, decide_eq_true_eq]
    by_cases hp : s.oam ((s._oam_addr_held + n * 4) % OAM_SIZE_BYTES) ≤ line ∧
        line < s.oam ((s._oam_addr_held + n * 4) % OAM_SIZE_BYTES) + h
    · rw [if_pos hp, if_pos hp]
      by_cases h9 : ((active ++ [(s._oam_addr_held + n * 4) % OAM_SIZE_BYTES]).length ≥ 9)
      · have hlen : active.length = 8 := by
          simp only [List.length_append, List.length_cons, List.length_nil] at h9
          omega
        rw [if_pos h9]
        simp [hlen]
      · have hlen : (active ++ [(s._oam_addr_held + n * 4) % OAM_SIZE_BYTES]).length ≤ 8 := by
          omega
        rw [if_neg h9, ih _ _ hlen, List.append_assoc]
        congr 1
        have h31 : 9 - active.length
            = (9 - (active ++ [(s._oam_addr_held + n * 4) % OAM_SIZE_BYTES]).length) + 1 := by
          simp only [List.length_append, List.length_cons, List.length_nil] at h9 ⊢
          omega
        rw [h31, List.take_succ_cons]
        rfl
    · rw [if_neg hp, if_neg hp, ih _ _ hle]

/-- C8: sprite evaluation scans the 64 OAM entries in order starting from
_oam_addr_held, captures in first-found order the sprites with
sprite_y <= line < sprite_y + height (height 16 when CTRL bit 5 is set,
else 8), at most 8 of them, and ors a 9th find into sprite_overflow.
run_cycles invokes it at dot 257 of every rendered visible line L with
line = L + 1 (and at dot 257 of the pre-render line with line = 0). -/
theorem sprite_evaluation_captures (s : PPUState) (line : Nat) :
    (_prefetch_active_sprites s line)._active_sprites
      = (scan_active s line (if s.ppu_ctrl &&& SPRITE_SIZE_MASK > 0 then 16 else 8)).take 8 ∧
    (_prefetch_active_sprites s line).sprite_overflow
      = (s.sprite_overflow ||
         decide (9 ≤ (scan_active s line
            (if s.ppu_ctrl &&& SPRITE_SIZE_MASK > 0 then 16 else 8)).length)) := by
  unfold _prefetch_active_sprites
  rw [scan_active_eq]
  simp only [decide_eq_true_eq]
  rw [prefetch_scan_fst s line _ (List.range 64) [] [] (by simp)]
  rw [fill_latches_active_sprites, fill_latches_sprite_overflow]
  simp only [List.nil_append, Nat.sub_zero]
  set L := ((List.range 64).map fun n => (s._oam_addr_held + n * 4) % OAM_SIZE_BYTES).filter
      (fun addr => decide (s.oam addr ≤ line ∧
        line < s.oam addr + (if s.ppu_ctrl &&& SPRITE_SIZE_MASK > 0 then 16 else 8)))
  by_cases h9 : 9 ≤ L.length
  · have ht : (L.take 9).length > 8 := by rw [List.length_take]; omega
    have h8 : 8 < L.length := by omega
    have hmin : min 8 9 = 8 := by omega
    simp [ht, h8, h9, List.take_take, hmin]
  · have ht : ¬ ((L.take 9).length > 8) := by rw [List.length_take]; omega
    have h8 : ¬ (8 < L.length) := by omega
    have hall : L.take 9 = L := List.take_of_length_le (by omega)
    have hall8 : L.take 8 = L := List.take_of_length_le (by omega)
    simp [ht, h8, h9, hall, hall8]

/-- C10: a STATUS read modifies only in_vblank, the shared write toggle and the
io latch: sprite_zero_hit, sprite_overflow, CTRL, MASK, OAMADDR, OAM, SCROLL,
ppu_addr, the data buffer and VRAM are all unchanged. -/
theorem status_read_frame (s : PPUState) :
    ((read_register s PPU_STATUS).2).sprite_zero_hit = s.sprite_zero_hit ∧
    ((read_register s PPU_STATUS).2).sprite_overflow = s.sprite_overflow ∧
    ((read_register s PPU_STATUS).2).ppu_ctrl = s.ppu_ctrl ∧
    ((read_register s PPU_STATUS).2).ppu_mask = s.ppu_mask ∧
    ((read_register s PPU_STATUS).2).oam_addr = s.oam_addr ∧
    ((read_register s PPU_STATUS).2).oam = s.oam ∧
    ((read_register s PPU_STATUS).2).ppu_scroll = s.ppu_scroll ∧
    ((read_register s PPU_STATUS).2).ppu_addr = s.ppu_addr ∧
    ((read_register s PPU_STATUS).2)._ppu_data_buffer = s._ppu_data_buffer ∧
    ((read_register s PPU_STATUS).2).vram = s.vram :=
  ⟨rfl, rfl, rfl, rfl, rfl, rfl, rfl, rfl, rfl, rfl⟩

/-- C3: a DATA read below the palette region returns the data buffer and
refills it from VRAM at ppu_addr; in the palette region it returns the VRAM
byte at ppu_addr directly and refills the buffer from ppu_addr - 0x1000; in
both cases ppu_addr is then incremented by 1 when CTRL bit 2 is clear and by
32 otherwise. -/
theorem data_read_buffered (s : PPUState) :
    (read_register s PPU_DATA).1
      = (if s.ppu_addr < PALETTE_START then s._ppu_data_buffer else s.vram s.ppu_addr) ∧
    ((read_register s PPU_DATA).2)._ppu_data_buffer
      = (if s.ppu_addr < PALETTE_START then s.vram s.ppu_addr
         else s.vram (s.ppu_addr - 0x1000)) ∧
    ((read_register s PPU_DATA).2).ppu_addr
      = s.ppu_addr + (if s.ppu_ctrl &&& VRAM_INCREMENT_MASK = 0 then 1 else 32) := by
  unfold read_register _increment_vram_address
  simp only [PPU_DATA, PPU_CTRL, PPU_MASK, PPU_STATUS, OAM_ADDR, OAM_DATA, PPU_SCROLL,
    PPU_ADDR]
  norm_num
  refine ⟨?_, ?_, ?_⟩ <;> split <;> rfl

/-- Modelled from the claim wording: slot i of the active sprites holds the
sprite with OAM source address 0, the current dot lies in its horizontal
range, and its prefetched pixel there is opaque. -/
def sprite_zero_solid_at (s : PPUState) (i : Nat) : Bool :=
  decide (s._active_sprites.getD i 0 = 0)
    && decide ((s.oam (s._active_sprites.getD i 0 + 3) : Int) ≤ (s.pixel : Int) - 1
         ∧ (s.pixel : Int) - 1 < (s.oam (s._active_sprites.getD i 0 + 3) : Int) + 8)
    && (s._sprite_pattern i (s.pixel - 1 - s.oam (s._active_sprites.getD i 0 + 3))).isSome

/-- One step of the overlay loop ors the sprite-zero visibility of that slot
into the accumulator. -/
theorem overlay_body_s0 (s : PPUState) (acc : Option RGB × Option Nat × Bool) (i : Nat) :
    (overlay_body s acc i).2.2 = (acc.2.2 || sprite_zero_solid_at s i) := by
  unfold overlay_body sprite_zero_solid_at
  by_cases hr : (s.oam (s._active_sprites.getD i 0 + 3) : Int) ≤ (s.pixel : Int) - 1
      ∧ (s.pixel : Int) - 1 < (s.oam (s._active_sprites.getD i 0 + 3) : Int) + 8
  · rw [if_pos hr, decide_eq_true hr]
    dsimp only
    cases hpat : s._sprite_pattern i (s.pixel - 1 - s.oam (s._active_sprites.getD i 0 + 3)) with
    | none =>
      dsimp only
      simp only [Option.isSome_none, Bool.and_false, Bool.or_false]
    | some c =>
      dsimp only
      simp only [Option.isSome_some, Bool.and_true]
  · rw [if_neg hr, decide_eq_false hr]
    simp only [Bool.and_false, Bool.false_and, Bool.or_false]

/-- The overlay fold detects the sprite with OAM address 0 as opaque and in
range at some slot of the processed list. -/
theorem overlay_loop_s0 (s : PPUState) :
    ∀ (l : List Nat) (acc : Option RGB × Option Nat × Bool),
      (l.foldl (overlay_body s) acc).2.2
        = (acc.2.2 || l.any (fun i => sprite_zero_solid_at s i)) := by
  intro l
  induction l with
  | nil => intro acc; simp
  | cons i l ih =>
    intro acc
    rw [List.foldl_cons, ih, overlay_body_s0]
    simp [Bool.or_assoc]

/-- decode_palette changes only the palette cache: line is kept. -/
theorem decode_palette_line (s : PPUState) (pid : Nat) (b : Bool) :
    ((decode_palette s pid b).2).line = s.line := by
  unfold decode_palette; split <;> rfl

/-- decode_palette changes only the palette cache: pixel is kept. -/
theorem decode_palette_pixel (s : PPUState) (pid : Nat) (b : Bool) :
    ((decode_palette s pid b).2).pixel = s.pixel := by
  unfold decode_palette; split <;> rfl

/-- The sprite pattern row writes keep line. -/
theorem sprite_row_body_line (i : Nat) (fh : Bool) (p : List RGB)
    (lo hi : Nat) (s : PPUState) (x : Nat) :
    (sprite_row_body i fh p lo hi s x).line = s.line := rfl

/-- The sprite pattern row writes keep pixel. -/
theorem sprite_row_body_pixel (i : Nat) (fh : Bool) (p : List RGB)
    (lo hi : Nat) (s : PPUState) (x : Nat) :
    (sprite_row_body i fh p lo hi s x).pixel = s.pixel := rfl

/-- Filling one sprite latch slot keeps line. -/
theorem fill_sprite_body_line (a b : List Nat) (d : Bool) (t : Nat)
    (s : PPUState) (i : Nat) :
    (fill_sprite_body a b d t s i).line = s.line := by
  unfold fill_sprite_body
  rw [foldl_proj_eq _ PPUState.line (sprite_row_body_line i _ _ _ _)]
  exact decode_palette_line ..

/-- Filling one sprite latch slot keeps pixel. -/
theorem fill_sprite_body_pixel (a b : List Nat) (d : Bool) (t : Nat)
    (s : PPUState) (i : Nat) :
    (fill_sprite_body a b d t s i).pixel = s.pixel := by
  unfold fill_sprite_body
  rw [foldl_proj_eq _ PPUState.pixel (sprite_row_body_pixel i _ _ _ _)]
  exact decode_palette_pixel ..

/-- _fill_sprite_latches keeps line. -/
theorem fill_latches_line (s : PPUState) (a b : List Nat) (d : Bool) :
    (_fill_sprite_latches s a b d).line = s.line := by
  unfold _fill_sprite_latches
  exact foldl_proj_eq _ PPUState.line (fun s i => fill_sprite_body_line a b d _ s i) _ s

/-- _fill_sprite_latches keeps pixel. -/
theorem fill_latches_pixel (s : PPUState) (a b : List Nat) (d : Bool) :
    (_fill_sprite_latches s a b d).pixel = s.pixel := by
  unfold _fill_sprite_latches
  exact foldl_proj_eq _ PPUState.pixel (fun s i => fill_sprite_body_pixel a b d _ s i) _ s

/-- Sprite evaluation keeps line. -/
theorem prefetch_line (s : PPUState) (l : Nat) :
    (_prefetch_active_sprites s l).line = s.line := by
  unfold _prefetch_active_sprites
  rw [fill_latches_line]
  dsimp only
  rw [apply_ite PPUState.line]
  dsimp only
  rw [ite_self]

/-- Sprite evaluation keeps pixel. -/
theorem prefetch_pixel (s : PPUState) (l : Nat) :
    (_prefetch_active_sprites s l).pixel = s.pixel := by
  unfold _prefetch_active_sprites
  rw [fill_latches_pixel]
  dsimp only
  rw [apply_ite PPUState.pixel]
  dsimp only
  rw [ite_self]

/-- Sprite evaluation keeps sprite_zero_hit. -/
theorem prefetch_sprite_zero_hit (s : PPUState) (l : Nat) :
    (_prefetch_active_sprites s l).sprite_zero_hit = s.sprite_zero_hit := by
  unfold _prefetch_active_sprites
  rw [fill_latches_sprite_zero_hit]
  dsimp only
  rw [apply_ite PPUState.sprite_zero_hit]
  dsimp only
  rw [ite_self]

/-- The background latch shift keeps line. -/
theorem shift_bkg_line (s : PPUState) : (shift_bkg_latches s).line = s.line := rfl

/-- The background latch shift keeps pixel. -/
theorem shift_bkg_pixel (s : PPUState) : (shift_bkg_latches s).pixel = s.pixel := rfl

/-- The background latch shift keeps sprite_zero_hit. -/
theorem shift_bkg_sprite_zero_hit (s : PPUState) :
    (shift_bkg_latches s).sprite_zero_hit = s.sprite_zero_hit := rfl

/-- The background fetch keeps line. -/
theorem fill_bkg_line (s : PPUState) (l c : Nat) : (fill_bkg_latches s l c).line = s.line := by
  unfold fill_bkg_latches
  exact decode_palette_line ..

/-- The background fetch keeps pixel. -/
theorem fill_bkg_pixel (s : PPUState) (l c : Nat) :
    (fill_bkg_latches s l c).pixel = s.pixel := by
  unfold fill_bkg_latches
  exact decode_palette_pixel ..

/-- The background fetch keeps sprite_zero_hit. -/
theorem fill_bkg_sprite_zero_hit (s : PPUState) (l c : Nat) :
    (fill_bkg_latches s l c).sprite_zero_hit = s.sprite_zero_hit := by
  unfold fill_bkg_latches
  exact decode_palette_sprite_zero_hit ..

/-- The sprite overlay keeps line. -/
theorem overlay_line (s : PPUState) (bkg : RGB) :
    ((_overlay_sprites s bkg).2).line = s.line := by
  unfold _overlay_sprites
  split
  · rfl
  · dsimp only
    rw [apply_ite Prod.snd, apply_ite PPUState.line]
    dsimp only
    rw [decode_palette_line, ite_self, apply_ite PPUState.line]
    dsimp only
    rw [ite_self]

/-- The sprite overlay keeps pixel. -/
theorem overlay_pixel (s : PPUState) (bkg : RGB) :
    ((_overlay_sprites s bkg).2).pixel = s.pixel := by
  unfold _overlay_sprites
  split
  · rfl
  · dsimp only
    rw [apply_ite Prod.snd, apply_ite PPUState.pixel]
    dsimp only
    rw [decode_palette_pixel, ite_self, apply_ite PPUState.pixel]
    dsimp only
    rw [ite_self]

/-- Characterization of the sprite-zero hit update of one overlay call: the
flag is ored with the conjunction of the sprite-enable and left-8 guard, the
presence of an opaque in-range pixel of the sprite at OAM address 0 among the
active slots, and the opacity of the background pixel. -/
theorem overlay_hit_eq (s : PPUState) (bkg : RGB) :
    ((_overlay_sprites s bkg).2).sprite_zero_hit
      = (s.sprite_zero_hit ||
          ((!(decide (s.ppu_mask &&& RENDER_SPRITES_MASK = 0
              ∨ ((s.pixel : Int) - 1 < 8 ∧ bit_low s.ppu_mask RENDER_LEFT8_SPRITES_BIT = true))))
            && (List.range s._active_sprites.length).any (fun i => sprite_zero_solid_at s i)
            && !(decide (bkg = transparent_color)))) := by
  unfold _overlay_sprites
  by_cases hg : s.ppu_mask &&& RENDER_SPRITES_MASK = 0
      ∨ ((s.pixel : Int) - 1 < 8 ∧ bit_low s.ppu_mask RENDER_LEFT8_SPRITES_BIT = true)
  · rw [if_pos hg]
    simp [hg]
  · rw [if_neg hg]
    dsimp only
    rw [overlay_loop_s0]
    have hfin : ∀ (st : PPUState) (c : RGB),
        ((if c ≠ transparent_color then (c, st)
          else ((decode_palette st 0).1.getD 0 (0, 0, 0), (decode_palette st 0).2)).2).sprite_zero_hit
          = st.sprite_zero_hit := by
      intro st c
      by_cases hc : c ≠ transparent_color
      · rw [if_pos hc]
      · rw [if_neg hc]
        exact decode_palette_sprite_zero_hit ..
    rw [hfin]
    by_cases hb : bkg = transparent_color
    · simp [hb, hg]
    · cases hany : (List.range s._active_sprites.length).any (fun i => sprite_zero_solid_at s i)
      · simp [hany, hb, hg]
      · simp [hany, hb, hg]

/-- Once the hit flag is set, one overlay call keeps it set. -/
theorem overlay_hit_true (s : PPUState) (bkg : RGB) (hh : s.sprite_zero_hit = true) :
    ((_overlay_sprites s bkg).2).sprite_zero_hit = true := by
  rw [overlay_hit_eq, hh, Bool.true_or]

/-- The frame reset keeps sprite_zero_hit. -/
theorem new_frame_sprite_zero_hit (s : PPUState) :
    (_new_frame s).sprite_zero_hit = s.sprite_zero_hit := rfl

/-- Raising an NMI keeps sprite_zero_hit. -/
theorem trigger_nmi_sprite_zero_hit (s : PPUState) :
    (_trigger_nmi s).sprite_zero_hit = s.sprite_zero_hit := rfl

/-- C7 (amended): the sprite-zero hit flag is set by a dot exactly when
sprites are enabled and not suppressed by the left-8 sprite mask at that dot,
the sprite whose OAM source address is 0 occupies some active slot with an
opaque prefetched pixel at the dot (whether or not it is the top sprite, and
at every dot 1..256, so at screen x 0..255), and the background pixel is
opaque; once set, the flag survives every further dot except dot 1 of
line 261, where it is cleared. -/
theorem sprite_zero_hit_rule :
    (∀ (s : PPUState) (bkg : RGB),
      ((_overlay_sprites s bkg).2).sprite_zero_hit
        = (s.sprite_zero_hit ||
            ((!(decide (s.ppu_mask &&& RENDER_SPRITES_MASK = 0
                ∨ ((s.pixel : Int) - 1 < 8 ∧ bit_low s.ppu_mask RENDER_LEFT8_SPRITES_BIT = true))))
              && (List.range s._active_sprites.length).any (fun i => sprite_zero_solid_at s i)
              && !(decide (bkg = transparent_color))))) ∧
    (∀ (s : PPUState) (fe : Bool), s.sprite_zero_hit = true →
      ((run_one_cycle s fe).1).sprite_zero_hit = !(decide (s.line = 261 ∧ s.pixel = 1))) := by
  constructor
  · exact overlay_hit_eq
  · intro s fe hh
    by_cases hl : s.line = 261
    · by_cases hp : s.pixel = 1
      · rw [decide_eq_true ⟨hl, hp⟩]
        simp [run_one_cycle, hl, hp, hh, apply_ite PPUState.sprite_zero_hit,
          apply_ite PPUState.line, apply_ite PPUState.pixel, apply_ite Prod.fst,
          apply_ite Prod.snd, overlay_hit_true, overlay_line, overlay_pixel,
          fill_bkg_sprite_zero_hit, fill_bkg_line, fill_bkg_pixel,
          shift_bkg_sprite_zero_hit, shift_bkg_line, shift_bkg_pixel,
          prefetch_sprite_zero_hit, prefetch_line, prefetch_pixel,
          new_frame_sprite_zero_hit, trigger_nmi_sprite_zero_hit]
      · rw [decide_eq_false (fun hc => hp hc.2)]
        simp [run_one_cycle, hl, hp, hh, apply_ite PPUState.sprite_zero_hit,
          apply_ite PPUState.line, apply_ite PPUState.pixel, apply_ite Prod.fst,
          apply_ite Prod.snd, overlay_hit_true, overlay_line, overlay_pixel,
          fill_bkg_sprite_zero_hit, fill_bkg_line, fill_bkg_pixel,
          shift_bkg_sprite_zero_hit, shift_bkg_line, shift_bkg_pixel,
          prefetch_sprite_zero_hit, prefetch_line, prefetch_pixel,
          new_frame_sprite_zero_hit, trigger_nmi_sprite_zero_hit]
    · rw [decide_eq_false (fun hc => hl hc.1)]
      simp [run_one_cycle, hl, hh, apply_ite PPUState.sprite_zero_hit,
        apply_ite PPUState.line, apply_ite PPUState.pixel, apply_ite Prod.fst,
        apply_ite Prod.snd, overlay_hit_true, overlay_line, overlay_pixel,
        fill_bkg_sprite_zero_hit, fill_bkg_line, fill_bkg_pixel,
        shift_bkg_sprite_zero_hit, shift_bkg_line, shift_bkg_pixel,
        prefetch_sprite_zero_hit, prefetch_line, prefetch_pixel,
        new_frame_sprite_zero_hit, trigger_nmi_sprite_zero_hit]

/-- C7: a state at dot 101 of a visible line whose active slots hold, in scan
order, the sprite at OAM address 4 (slot 0) and the sprite at OAM address 0
(slot 1), both at sprite x 100 with opaque prefetched pixels there, sprites
enabled. -/
def overlay_cex_state : PPUState :=
  { ppu_init (fun _ => 0) with
    ppu_mask := RENDER_SPRITES_MASK,
    pixel := 101,
    _active_sprites := [4, 0],
    oam := fun a => if a = 7 ∨ a = 3 then 100 else 0,
    _sprite_pattern := fun i x =>
      if x = 0 then (if i = 0 then some (9, 9, 9) else some (8, 8, 8)) else none }

/-- C7 counterexample: with an opaque background pixel, the overlay returns
the pixel (9,9,9) of the sprite at OAM address 4 (the top opaque sprite, in
the lower slot), yet sprite_zero_hit is set because the sprite at OAM
address 0 is opaque underneath it; the claim, which requires the top opaque
sprite pixel to come from OAM source address 0, says the flag must not be
set here. -/
theorem sprite_zero_hit_top_sprite_cex :
    overlay_cex_state.sprite_zero_hit = false ∧
    overlay_cex_state._active_sprites.getD 0 99 = 4 ∧
    (_overlay_sprites overlay_cex_state (82, 82, 82)).1 = (9, 9, 9) ∧
    ((_overlay_sprites overlay_cex_state (82, 82, 82)).2).sprite_zero_hit = true := by
  refine ⟨rfl, by decide, by decide, by decide⟩

/-- C7: a state with the hit flag set, standing at dot 1 of line 261. -/
def hit_clear_state : PPUState :=
  { ppu_init (fun _ => 0) with sprite_zero_hit := true, line := 261, pixel := 1 }

/-- C7 witness: the persistence part of the hit rule applied at dot 1 of
line 261 with the flag set clears it, and the overlay part applied at the
concrete overlay state sets it. -/
theorem sprite_zero_hit_rule_witness :
    ((run_one_cycle hit_clear_state false).1).sprite_zero_hit = false ∧
    ((_overlay_sprites { overlay_cex_state with _active_sprites := [0] } (82, 82, 82)).2).sprite_zero_hit
      = true := by
  constructor
  · have h := sprite_zero_hit_rule.2 hit_clear_state false rfl
    rw [h]
    decide
  · have h := sprite_zero_hit_rule.1 { overlay_cex_state with _active_sprites := [0] } (82, 82, 82)
    rw [h]
    decide

/-- C2: the state used to exhibit the STATUS low-bit composition bug: the io
latch holds 0x0F, whose low 5 bits are 0x0F. -/
def status_bug_state : PPUState := { ppu_init (fun _ => 0) with _io_latch := 0x0F }

/-- C2: reading STATUS with io latch 0x0F and all flags clear returns 0x01,
not 0x0F: the source masks the latch with the literal 0x00011111, written
like the binary masks of the file but with a hex prefix, whose low byte is
0x11, instead of 0b00011111 = 0x1F; the claimed clearing of in_vblank and of
the write toggle does happen. -/
theorem status_read_low_bits_bug :
    (read_register status_bug_state PPU_STATUS).1 = 0x01 ∧
    (read_register status_bug_state PPU_STATUS).1 ≠ 0x0F ∧
    ((read_register status_bug_state PPU_STATUS).2).in_vblank = false ∧
    ((read_register status_bug_state PPU_STATUS).2)._ppu_byte_latch = 0 := by
  refine ⟨rfl, by decide, rfl, rfl⟩

/-- C4 (amended): a CTRL write while cycles_since_reset, the counter of PPU
dots since reset, is below 29658 leaves the internal CTRL state (ppu_ctrl and
the nametable latch _tN) unchanged; from 29658 PPU dots on it takes effect;
the io latch is always set to the written byte. -/
theorem ctrl_write_warmup_window (s : PPUState) (value : Nat) :
    (write_register s PPU_CTRL value).ppu_ctrl
      = (if s.cycles_since_reset < 29658 then s.ppu_ctrl else value &&& 0xFF) ∧
    (write_register s PPU_CTRL value)._tN
      = (if s.cycles_since_reset < 29658 then s._tN else value &&& 0b00000011) ∧
    (write_register s PPU_CTRL value)._io_latch = value &&& 0xFF := by
  unfold write_register _trigger_nmi
  simp only [PPU_CTRL]
  norm_num
  split
  · simp_all
  · split <;> simp_all

/-- C4: a state whose dot counter stands at 29658 PPU dots since reset, which
is about 9886 CPU cycles, inside the claimed 29658-CPU-cycle warm-up window. -/
def warmup_cex_state : PPUState := { ppu_init (fun _ => 0) with cycles_since_reset := 29658 }

/-- C4 counterexample: at 29658 PPU dots after reset, far inside the claimed
29658-CPU-cycle (about 88974 PPU dots) warm-up window, a CTRL write already
takes effect, because the source compares the constant 29658 against its
PPU-dot counter. -/
theorem ctrl_write_warmup_cex :
    warmup_cex_state.cycles_since_reset = 29658 ∧
    (29658 : Nat) < 88974 ∧
    warmup_cex_state.ppu_ctrl = 0 ∧
    (write_register warmup_cex_state PPU_CTRL 0xFF).ppu_ctrl = 0xFF := by
  refine ⟨rfl, by decide, rfl, by decide⟩

/-- C5 (amended): an ADDR write with write toggle 0 sets the high byte,
ppu_addr := (ppu_addr and 0x00FF) + (value shifted left 8), and does not touch
the nametable-select latch; a write with toggle 1 sets the low byte,
ppu_addr := (ppu_addr and 0xFF00) + value, and overwrites the nametable-select
latch _tN with bits 3-2 of the value; ppu_ctrl itself is never changed; every
ADDR write flips the shared write toggle. -/
theorem addr_write_semantics (s : PPUState) (value : Nat) :
    (write_register s PPU_ADDR value).ppu_addr
      = (if s._ppu_byte_latch = 0 then (s.ppu_addr &&& 0x00FF) + (value <<< 8)
         else (s.ppu_addr &&& 0xFF00) + value) ∧
    (write_register s PPU_ADDR value)._tN
      = (if s._ppu_byte_latch = 0 then s._tN else (value &&& 0b00001100) >>> 2) ∧
    (write_register s PPU_ADDR value).ppu_ctrl = s.ppu_ctrl ∧
    (write_register s PPU_ADDR value)._ppu_byte_latch = 1 - s._ppu_byte_latch := by
  unfold write_register
  simp only [PPU_ADDR, PPU_CTRL, PPU_MASK, PPU_STATUS, OAM_ADDR, OAM_DATA, PPU_SCROLL]
  norm_num
  split <;> simp_all

/-- C5: the reset state, whose write toggle is 0 and whose nametable-select
state (ppu_ctrl and _tN) is 0. -/
def addr_cex_state : PPUState := ppu_init (fun _ => 0)

/-- C5 counterexample: writing 0x03 to ADDR with write toggle 0 (the high
write) sets ppu_addr to 0x0300 but leaves both ppu_ctrl and the
nametable-select latch _tN at 0, although the claim says the low 2 bits of
this high write overwrite the nametable-select bits (the source instead
overwrites _tN on the low write, from bits 3-2 of that byte). -/
theorem addr_high_write_nametable_cex :
    addr_cex_state._ppu_byte_latch = 0 ∧
    addr_cex_state._tN = 0 ∧
    addr_cex_state.ppu_ctrl = 0 ∧
    (write_register addr_cex_state PPU_ADDR 0x03).ppu_addr = 0x0300 ∧
    (write_register addr_cex_state PPU_ADDR 0x03)._tN = 0 ∧
    (write_register addr_cex_state PPU_ADDR 0x03).ppu_ctrl = 0 := by
  refine ⟨rfl, rfl, rfl, by decide, by decide, by decide⟩

/-- C9 (amended): every ADDR write of a byte restores ppu_addr to the 16-bit
range, but the auto-increment done by every DATA read and every DATA write
adds 1 or 32 (per CTRL bit 2) with no 16-bit masking, so ppu_addr can leave
the 16-bit range there. -/
theorem ppu_addr_range :
    (∀ (s : PPUState) (v : Nat), v < 256 →
      (write_register s PPU_ADDR v).ppu_addr < 0x10000) ∧
    (∀ s : PPUState, ((read_register s PPU_DATA).2).ppu_addr
      = s.ppu_addr + (if s.ppu_ctrl &&& VRAM_INCREMENT_MASK = 0 then 1 else 32)) ∧
    (∀ (s : PPUState) (v : Nat), (write_register s PPU_DATA v).ppu_addr
      = s.ppu_addr + (if s.ppu_ctrl &&& VRAM_INCREMENT_MASK = 0 then 1 else 32)) := by
  refine ⟨fun s v hv => ?_, fun s => ?_, fun s v => ?_⟩
  · unfold write_register
    simp only [PPU_ADDR, PPU_CTRL, PPU_MASK, PPU_STATUS, OAM_ADDR, OAM_DATA, PPU_SCROLL]
    norm_num
    have h8 : v <<< 8 = v * 256 := by rw [Nat.shiftLeft_eq]
    split
    · show (s.ppu_addr &&& 0x00FF) + (v <<< 8) < 0x10000
      have h1 : s.ppu_addr &&& 0x00FF ≤ 0x00FF := Nat.and_le_right
      rw [h8]; omega
    · show (s.ppu_addr &&& 0xFF00) + v < 0x10000
      have h1 : s.ppu_addr &&& 0xFF00 ≤ 0xFF00 := Nat.and_le_right
      omega
  · unfold read_register _increment_vram_address
    simp only [PPU_DATA, PPU_CTRL, PPU_MASK, PPU_STATUS, OAM_ADDR, OAM_DATA, PPU_SCROLL,
      PPU_ADDR]
    norm_num
    split <;> split <;> rfl
  · unfold write_register _increment_vram_address invalidate_palette_cache
    simp only [PPU_DATA, PPU_CTRL, PPU_MASK, PPU_STATUS, OAM_ADDR, OAM_DATA, PPU_SCROLL,
      PPU_ADDR]
    norm_num
    split <;> split <;> rfl

/-- C9 witness: the bound of the first part of the range theorem at a
concrete byte written to ADDR in the reset state. -/
theorem ppu_addr_range_witness :
    (255 : Nat) < 256 ∧
    (write_register (ppu_init (fun _ => 0)) PPU_ADDR 255).ppu_addr < 0x10000 :=
  ⟨by decide, ppu_addr_range.1 (ppu_init (fun _ => 0)) 255 (by decide)⟩

/-- C9: the state after writing 0xFF, 0xFF to ADDR from reset (so
ppu_addr = 0xFFFF) and then reading DATA once. -/
def data_increment_cex : PPUState :=
  (read_register
    (write_register (write_register (ppu_init (fun _ => 0)) PPU_ADDR 0xFF) PPU_ADDR 0xFF)
    PPU_DATA).2

/-- C9 counterexample: after the ADDR pair 0xFF, 0xFF the address is 0xFFFF,
and the very next DATA read leaves ppu_addr = 0x10000, outside the 16-bit
range, since the auto-increment is not masked. -/
theorem ppu_addr_overflow_cex :
    (write_register (write_register (ppu_init (fun _ => 0)) PPU_ADDR 0xFF) PPU_ADDR 0xFF).ppu_addr
      = 0xFFFF ∧
    data_increment_cex.ppu_addr = 0x10000 := by
  refine ⟨by decide, by decide⟩

/-- C1: a state standing at the frame-end dot of an even frame, line 261
dot 340, with vblank already cleared at dot 1 of this line. -/
def frame_boundary_state : PPUState := { ppu_init (fun _ => 0) with line := 261, pixel := 340 }

/-- C1: running three dots across the frame boundary in one run_cycles call
advances frames_since_reset by three, because the loop-local frame_ended flag
is never reset once set, so _new_frame runs again on every later dot of the
same call, pinning (line, pixel) to (0, 0); the machine therefore passes
whole frames (by its own frame counter) in which in_vblank never rises and
no NMI fires, against the once-per-frame claim. -/
theorem run_cycles_sticky_frame_flag :
    (run_cycles frame_boundary_state 3).1.frames_since_reset = 3 ∧
    (run_cycles frame_boundary_state 3).1.line = 0 ∧
    (run_cycles frame_boundary_state 3).1.pixel = 0 ∧
    (run_cycles frame_boundary_state 3).1.in_vblank = false ∧
    (run_cycles frame_boundary_state 3).1.nmi_count = 0 := by
  refine ⟨by decide, by decide, by decide, by decide, by decide⟩

/-- C6: an engine in 8x16 sprite mode (CTRL bit 5 set, CTRL bit 3 clear)
whose sprite zero has OAM tile index 1, with every byte of pattern table
0x0000 holding 0xFF and every byte of pattern table 0x1000 holding 0x00. -/
def sprite16_bug_state : PPUState :=
  { ppu_init (fun a => if a < 0x1000 then 0xFF else 0) with
    ppu_ctrl := SPRITE_SIZE_MASK,
    oam := fun a => if a = 1 then 1 else 0 }

/-- C6: prefetching for line 1 latches an opaque row for sprite zero even
though its tile index has bit 0 set and pattern table 0x1000 is all zero
(which per the claim should make the row transparent): the source selects the
pattern table once from CTRL bit 3 for 8x16 sprites as well, so it reads the
0xFF bytes of table 0x0000; the bit-0 mask, the 15-based flip and the
lower-tile advance of the claim are implemented. -/
theorem sprite16_table_select_bug :
    sprite16_bug_state.ppu_ctrl &&& SPRITE_PATTERN_TABLE_MASK = 0 ∧
    sprite16_bug_state.oam 1 = 1 ∧
    sprite16_bug_state.vram 0x0001 = 0xFF ∧
    sprite16_bug_state.vram 0x0009 = 0xFF ∧
    sprite16_bug_state.vram 0x1001 = 0 ∧
    sprite16_bug_state.vram 0x1009 = 0 ∧
    (_prefetch_active_sprites sprite16_bug_state 1)._active_sprites.getD 0 99 = 0 ∧
    (_prefetch_active_sprites sprite16_bug_state 1)._sprite_pattern 0 0 = some (82, 82, 82) := by
  refine ⟨by decide, by decide, by decide, by decide, by decide, by decide, by decide, by decide⟩

end NESPPU
